import Mathlib

/-!
# MaxScale `log_manager.h`: priority masks and logging macros

A shallow embedding of `server/include/log_manager.h`.  C `int` and `ssize_t`
values are integers; the bitwise operators `&`, `|`, `~` and `<<` on `int` are
`Int.land`, `Int.lor`, `Int.lnot` and `<<<`, which agree with two's-complement
arithmetic on every bit position the header touches (levels `0..7`).
-/

namespace MaxScale

/-! ## Syslog levels (`<syslog.h>`) -/

/-- Modelled from the spec: the level constants of the system header `<syslog.h>`, which is
not part of the repository; the eight levels emergency .. debug are numbered `0..7`. -/
def LOG_EMERG : Int := 0
/-- Modelled from the spec: syslog level `alert` of `<syslog.h>`. -/
def LOG_ALERT : Int := 1
/-- Modelled from the spec: syslog level `critical` of `<syslog.h>`. -/
def LOG_CRIT : Int := 2
/-- Modelled from the spec: syslog level `error` of `<syslog.h>`. -/
def LOG_ERR : Int := 3
/-- Modelled from the spec: syslog level `warning` of `<syslog.h>`. -/
def LOG_WARNING : Int := 4
/-- Modelled from the spec: syslog level `notice` of `<syslog.h>`. -/
def LOG_NOTICE : Int := 5
/-- Modelled from the spec: syslog level `informational` of `<syslog.h>`. -/
def LOG_INFO : Int := 6
/-- Modelled from the spec: syslog level `debug` of `<syslog.h>`. -/
def LOG_DEBUG : Int := 7

/-! ## `enum mxs_log_priorities` -/

def MXS_LOG_EMERG : Int := 1 <<< LOG_EMERG
def MXS_LOG_ALERT : Int := 1 <<< LOG_ALERT
def MXS_LOG_CRIT : Int := 1 <<< LOG_CRIT
def MXS_LOG_ERR : Int := 1 <<< LOG_ERR
def MXS_LOG_WARNING : Int := 1 <<< LOG_WARNING
def MXS_LOG_NOTICE : Int := 1 <<< LOG_NOTICE
def MXS_LOG_INFO : Int := 1 <<< LOG_INFO
def MXS_LOG_DEBUG : Int := 1 <<< LOG_DEBUG

def MXS_LOG_MASK : Int :=
  Int.lor (Int.lor (Int.lor (Int.lor (Int.lor (Int.lor (Int.lor MXS_LOG_EMERG MXS_LOG_ALERT)
    MXS_LOG_CRIT) MXS_LOG_ERR) MXS_LOG_WARNING) MXS_LOG_NOTICE) MXS_LOG_INFO) MXS_LOG_DEBUG

/-- The enumerator of `enum mxs_log_priorities` declared for a syslog level. -/
def priorityEnumerator (level : Int) : Option Int :=
  if level = LOG_EMERG then some MXS_LOG_EMERG
  else if level = LOG_ALERT then some MXS_LOG_ALERT
  else if level = LOG_CRIT then some MXS_LOG_CRIT
  else if level = LOG_ERR then some MXS_LOG_ERR
  else if level = LOG_WARNING then some MXS_LOG_WARNING
  else if level = LOG_NOTICE then some MXS_LOG_NOTICE
  else if level = LOG_INFO then some MXS_LOG_INFO
  else if level = LOG_DEBUG then some MXS_LOG_DEBUG
  else none

/-! ## Thread-specific logging information and the global variables -/

/-- The struct `mxs_log_info_t`. -/
structure mxs_log_info where
  li_sesid : Nat
  li_enabled_priorities : Int

/-- The three `extern` variables read by `MXS_LOG_PRIORITY_IS_ENABLED`. -/
structure LogVars where
  mxs_log_enabled_priorities : Int
  mxs_log_session_count : Nat → Int
  mxs_log_tls : mxs_log_info

/-- The macro `MXS_LOG_PRIORITY_IS_ENABLED(priority)`; a C condition is true when it is
nonzero. -/
def MXS_LOG_PRIORITY_IS_ENABLED (v : LogVars) (priority : Nat) : Bool :=
  if (decide (Int.land v.mxs_log_enabled_priorities (1 <<< (priority : Int)) ≠ 0) ||
      (decide (v.mxs_log_session_count priority > 0) &&
       decide (Int.land v.mxs_log_tls.li_enabled_priorities (1 <<< (priority : Int)) ≠ 0)))
  then true else false

/-! ## The logging entry point and the macros built on it -/

/-- What a call site supplies through `__FILE__`, `__LINE__` and `__func__`. -/
structure CallSite where
  file : String
  line : Int
  func : String
  deriving DecidableEq, Repr

/-- One variadic argument of a printf-style call. -/
inductive Arg where
  | str (s : String)
  | int (i : Int)
  deriving DecidableEq, Repr

/-- The arguments of one invocation of the external function `mxs_log_message`; a
`const char*` that may be `NULL` is an `Option String`. -/
structure LogCall where
  priority : Int
  modname : Option String
  file : String
  line : Int
  function : String
  format : String
  args : List Arg
  deriving DecidableEq, Repr

/-- The call expression `mxs_log_message(priority, modname, file, line, function, format, ...)`.
The function is declared in the header and defined elsewhere; a call is recorded by its
arguments. -/
def mxs_log_message (priority : Int) (modname : Option String) (file : String) (line : Int)
    (function : String) (format : String) (args : List Arg) : LogCall :=
  { priority := priority, modname := modname, file := file, line := line,
    function := function, format := format, args := args }

/-- The macro `MXS_MODULE_NAME` as seen after the header: `predefined` is `none` when the
including file did not define it (the header then defines it as `NULL`), and `some v` when it
was defined as `v` before the header was included. -/
def MXS_MODULE_NAME (predefined : Option (Option String)) : Option String :=
  match predefined with
  | some v => v
  | none => none

/-- The macro `MXS_LOG_MESSAGE(priority, format, ...)`: the calls of `mxs_log_message` made by
one expansion. -/
def MXS_LOG_MESSAGE (predefined : Option (Option String)) (site : CallSite) (priority : Int)
    (format : String) (args : List Arg) : List LogCall :=
  [mxs_log_message priority (MXS_MODULE_NAME predefined) site.file site.line site.func format args]

def MXS_ERROR (predefined : Option (Option String)) (site : CallSite) (format : String)
    (args : List Arg) : List LogCall :=
  MXS_LOG_MESSAGE predefined site LOG_ERR format args

def MXS_WARNING (predefined : Option (Option String)) (site : CallSite) (format : String)
    (args : List Arg) : List LogCall :=
  MXS_LOG_MESSAGE predefined site LOG_WARNING format args

def MXS_NOTICE (predefined : Option (Option String)) (site : CallSite) (format : String)
    (args : List Arg) : List LogCall :=
  MXS_LOG_MESSAGE predefined site LOG_NOTICE format args

def MXS_INFO (predefined : Option (Option String)) (site : CallSite) (format : String)
    (args : List Arg) : List LogCall :=
  MXS_LOG_MESSAGE predefined site LOG_INFO format args

def MXS_DEBUG (predefined : Option (Option String)) (site : CallSite) (format : String)
    (args : List Arg) : List LogCall :=
  MXS_LOG_MESSAGE predefined site LOG_DEBUG format args

/-- The macro `MXS_OOM_MESSAGE(message)`. -/
def MXS_OOM_MESSAGE (predefined : Option (Option String)) (site : CallSite) (message : String) :
    List LogCall :=
  MXS_ERROR predefined site "OOM: %s" [Arg.str message]

/-- The macro `MXS_OOM_MESSAGE_IFNULL(p, m)`; the pointer `p` is its address, `NULL` being
`0`, and the `do ... while (false)` body runs once. -/
def MXS_OOM_MESSAGE_IFNULL (predefined : Option (Option String)) (site : CallSite) (p : Nat)
    (m : String) : List LogCall :=
  if p = 0 then MXS_OOM_MESSAGE predefined site m else []

/-- The macro `MXS_OOM()`. -/
def MXS_OOM (predefined : Option (Option String)) (site : CallSite) : List LogCall :=
  MXS_OOM_MESSAGE predefined site site.func

/-- The macro `MXS_OOM_IFNULL(p)`. -/
def MXS_OOM_IFNULL (predefined : Option (Option String)) (site : CallSite) (p : Nat) :
    List LogCall :=
  if p = 0 then MXS_OOM predefined site else []

/-- The anonymous enumerator `MXS_OOM_MESSAGE_MAXLEN`. -/
def MXS_OOM_MESSAGE_MAXLEN : Nat := 80

/-- The text a printf-style format denotes, for the conversions `%s`, `%d` and `%%`
(`mxs_log_message` is declared `format(printf, 6, 7)`); other characters are copied. -/
def vformat : List Char → List Arg → List Char
  | [], _ => []
  | '%' :: 's' :: rest, Arg.str s :: args => s.toList ++ vformat rest args
  | '%' :: 'd' :: rest, Arg.int i :: args => (toString i).toList ++ vformat rest args
  | '%' :: '%' :: rest, args => '%' :: vformat rest args
  | c :: rest, args => c :: vformat rest args

/-- The message text requested by a call of `mxs_log_message`. -/
def LogCall.text (c : LogCall) : List Char :=
  vformat c.format.toList c.args

/-! ## Throttling -/

/-- The struct `MXS_LOG_THROTTLING`. -/
structure MXS_LOG_THROTTLING where
  count : Nat
  window_ms : Nat
  suppress_ms : Nat
  deriving DecidableEq, Repr

/-- Modelled from the spec: the per-call-site record `ThrottleState` of the Throttle Tracker
(`{count, windowStartTime, suppressedUntilTime}`); the tracker is implemented outside the
header. -/
structure ThrottleState where
  count : Nat
  windowStartTime : Nat
  suppressedUntilTime : Option Nat
  deriving DecidableEq, Repr

/-- Modelled from the spec: the Throttle Tracker, holding the global policy and the lazily
created per-call-site entries; it is implemented outside the header. -/
structure ThrottleTracker where
  policy : MXS_LOG_THROTTLING
  sites : Nat → Option ThrottleState

/-- Modelled from the spec: `mxs_log_set_throttling` (`setPolicy`) replaces the global policy;
its body is outside the header. -/
def mxs_log_set_throttling (t : ThrottleTracker) (throttling : MXS_LOG_THROTTLING) :
    ThrottleTracker :=
  { t with policy := throttling }

/-- Modelled from the spec: `mxs_log_get_throttling` (`getPolicy`); its body is outside the
header. -/
def mxs_log_get_throttling (t : ThrottleTracker) : MXS_LOG_THROTTLING :=
  t.policy

/-- Modelled from the spec: one decision of the Throttle Tracker algorithm of section 4.3 on
the entry of a call site, absent from the header.  A policy with `maxCount = 0` always passes.
An entry is created on the first use of its site, the window starting at that message.  While
suppressed, every call returns true until the deadline; at or after the deadline suppression is
cleared and the window restarts.  Otherwise, inside the window the count is incremented and
exceeding `maxCount` marks the site suppressed until `nowMs + suppressMs`; outside the window
it is reset. -/
def throttleStep (policy : MXS_LOG_THROTTLING) (entry : Option ThrottleState) (nowMs : Nat) :
    Bool × Option ThrottleState :=
  if policy.count = 0 then (false, entry)
  else
    let s : ThrottleState := entry.getD { count := 0, windowStartTime := nowMs,
                                           suppressedUntilTime := none }
    match s.suppressedUntilTime with
    | some suppressedUntil =>
      if nowMs ≥ suppressedUntil then
        (false, some { count := 1, windowStartTime := nowMs, suppressedUntilTime := none })
      else (true, some s)
    | none =>
      if nowMs - s.windowStartTime ≤ policy.window_ms then
        if s.count + 1 > policy.count then
          (true, some { s with count := s.count + 1,
                               suppressedUntilTime := some (nowMs + policy.suppress_ms) })
        else (false, some { s with count := s.count + 1 })
      else (false, some { count := 1, windowStartTime := nowMs, suppressedUntilTime := none })

/-- Modelled from the spec: `shouldSuppress(callSiteId, nowMs)` of the Throttle Tracker, absent
from the header: the decision for one message and the tracker afterwards. -/
def shouldSuppress (t : ThrottleTracker) (callSiteId nowMs : Nat) : Bool × ThrottleTracker :=
  let r := throttleStep t.policy (t.sites callSiteId) nowMs
  (r.1, { t with sites := Function.update t.sites callSiteId r.2 })

/-- Messages `(callSiteId, nowMs)` submitted in order: each site-tagged decision, and the
tracker at the end. -/
def logAll : ThrottleTracker → List (Nat × Nat) → List (Nat × Bool) × ThrottleTracker
  | t, [] => ([], t)
  | t, (site, nowMs) :: rest =>
    let r := shouldSuppress t site nowMs
    let r' := logAll r.2 rest
    ((site, r.1) :: r'.1, r'.2)

/-- The times at which one call site logs, out of a stream of messages. -/
def timesOf (site : Nat) (msgs : List (Nat × Nat)) : List Nat :=
  (msgs.filter (fun m => m.1 = site)).map Prod.snd

/-- The decisions taken for one call site, out of the site-tagged decisions. -/
def decisionsOf (site : Nat) (ds : List (Nat × Bool)) : List Bool :=
  (ds.filter (fun d => d.1 = site)).map Prod.snd

/-- The decisions for the messages of a single call site, from its entry. -/
def siteRun (policy : MXS_LOG_THROTTLING) :
    Option ThrottleState → List Nat → List Bool × Option ThrottleState
  | entry, [] => ([], entry)
  | entry, nowMs :: rest =>
    let r := throttleStep policy entry nowMs
    let r' := siteRun policy r.2 rest
    (r.1 :: r'.1, r'.2)

/-! ## Session overrides -/

/-- Modelled from the spec: the Session Override Table of section 4.2, whose code is outside
the header: each session's `enabledPrioritiesMask` (the `li_enabled_priorities` a thread
serving the session sees) and the counters `mxs_log_session_count`. -/
structure SessionTable where
  enabledMask : Nat → Int
  mxs_log_session_count : Nat → Int

/-- Modelled from the spec: the table at initialisation, no session having an override and
all counters zero. -/
def SessionTable.init : SessionTable :=
  { enabledMask := fun _ => 0, mxs_log_session_count := fun _ => 0 }

/-- Modelled from the spec: `sessionSetPriorityEnabled(sessionId, priority, enabled)`, absent
from the header: the session's mask and the interest counter change together, the counter
being incremented on enable-from-false and decremented on a disable of an enabled priority;
enabling an enabled or disabling a disabled priority is a no-op. -/
def sessionSetPriorityEnabled (t : SessionTable) (sessionId priority : Nat) (enabled : Bool) :
    SessionTable :=
  let bit : Int := 1 <<< (priority : Int)
  let mask := t.enabledMask sessionId
  let has : Bool := decide (Int.land mask bit ≠ 0)
  if enabled then
    if has then t
    else
      { enabledMask := Function.update t.enabledMask sessionId (Int.lor mask bit),
        mxs_log_session_count := Function.update t.mxs_log_session_count priority
          (t.mxs_log_session_count priority + 1) }
  else
    if has then
      { enabledMask := Function.update t.enabledMask sessionId (Int.land mask (Int.lnot bit)),
        mxs_log_session_count := Function.update t.mxs_log_session_count priority
          (t.mxs_log_session_count priority - 1) }
    else t

/-- One per-session toggle request. -/
structure Toggle where
  sessionId : Nat
  priority : Nat
  enabled : Bool
  deriving DecidableEq, Repr

/-- A sequence of toggles applied in order. -/
def applyToggles (t : SessionTable) (ts : List Toggle) : SessionTable :=
  ts.foldl (fun acc g => sessionSetPriorityEnabled acc g.sessionId g.priority g.enabled) t

/-- Whether a priority is enabled in a session's mask. -/
def SessionTable.has (t : SessionTable) (sessionId priority : Nat) : Bool :=
  Int.testBit (t.enabledMask sessionId) priority


/-- The counters count, over a finite set of sessions outside which no mask has a bit, the
sessions whose mask has the priority. -/
def CountsSessions (S : Finset Nat) (t : SessionTable) : Prop :=
  (∀ sid, sid ∉ S → t.enabledMask sid = 0) ∧
  ∀ p, t.mxs_log_session_count p =
    ∑ s in S, if Int.testBit (t.enabledMask s) p = true then (1 : Int) else 0

/-! ## Bit tests -/

theorem nat_ne_zero_iff_of_single_bit (n p : Nat) (b : Bool)
    (h : ∀ i, n.testBit i = (decide (p = i) && b)) : n ≠ 0 ↔ b = true := by
  constructor
  · intro hn
    by_contra hb
    apply hn
    apply Nat.eq_of_testBit_eq
    intro i
    rw [h i]
    simp at hb
    simp [hb]
  · intro hb hn
    have := h p
    rw [hn, hb] at this
    simp at this

theorem land_one_shiftLeft_natCast (m : Int) (p : Nat) :
    ∃ n : Nat, Int.land m (1 <<< (p : Int)) = (n : Int) := by
  rw [Int.one_shiftLeft]
  cases m with
  | ofNat a => exact ⟨a &&& 2 ^ p, rfl⟩
  | negSucc a => exact ⟨Nat.ldiff (2 ^ p) a, rfl⟩

theorem testBit_one_shiftLeft (p i : Nat) :
    Int.testBit (1 <<< (p : Int)) i = decide (p = i) := by
  rw [Int.one_shiftLeft]
  show Nat.testBit (2 ^ p) i = decide (p = i)
  rw [Nat.testBit_two_pow]

/-- The C test `m & (1 << p)` is nonzero exactly when bit `p` of `m` is set. -/
theorem land_one_shiftLeft_ne_zero (m : Int) (p : Nat) :
    Int.land m (1 <<< (p : Int)) ≠ 0 ↔ Int.testBit m p = true := by
  obtain ⟨n, hn⟩ := land_one_shiftLeft_natCast m p
  have hbits : ∀ i, n.testBit i = (decide (p = i) && Int.testBit m p) := by
    intro i
    have h1 : Int.testBit (Int.land m (1 <<< (p : Int))) i = n.testBit i := by
      rw [hn]; rfl
    rw [← h1, Int.testBit_land, testBit_one_shiftLeft]
    by_cases hpi : p = i
    · subst hpi; simp
    · simp [hpi]
  rw [hn]
  have := nat_ne_zero_iff_of_single_bit n p _ hbits
  rw [← this]
  simp

/-! ## The enabled check -/

theorem MXS_LOG_PRIORITY_IS_ENABLED_iff (v : LogVars) (p : Nat) :
    MXS_LOG_PRIORITY_IS_ENABLED v p = true ↔
      (Int.testBit v.mxs_log_enabled_priorities p = true ∨
        (v.mxs_log_session_count p > 0 ∧
          Int.testBit v.mxs_log_tls.li_enabled_priorities p = true)) := by
  unfold MXS_LOG_PRIORITY_IS_ENABLED
  simp only [ite_eq_left_iff, Bool.not_eq_true, Bool.false_eq_true, imp_false,
    Bool.not_eq_false, Bool.or_eq_true, Bool.and_eq_true, decide_eq_true_eq]
  rw [land_one_shiftLeft_ne_zero, land_one_shiftLeft_ne_zero, not_not]

/-- C1: for every level `p` in `0..7` and every value of the global mask, the counter array
and the thread-local session mask, `MXS_LOG_PRIORITY_IS_ENABLED(p)` is true if and only if bit
`p` of the global mask is set, or `mxs_log_session_count[p] > 0` and bit `p` of the
thread-local session mask is set. -/
theorem C1_priority_is_enabled_iff (v : LogVars) (p : Nat) (_hp : p < 8) :
    MXS_LOG_PRIORITY_IS_ENABLED v p = true ↔
      (Int.testBit v.mxs_log_enabled_priorities p = true ∨
        (v.mxs_log_session_count p > 0 ∧
          Int.testBit v.mxs_log_tls.li_enabled_priorities p = true)) :=
  MXS_LOG_PRIORITY_IS_ENABLED_iff v p

theorem C1_priority_is_enabled_iff_witness :
    3 < 8 ∧
    (MXS_LOG_PRIORITY_IS_ENABLED ⟨0, fun _ => 1, ⟨7, 8⟩⟩ 3 = true ↔
      (Int.testBit (0 : Int) 3 = true ∨ ((1 : Int) > 0 ∧ Int.testBit (8 : Int) 3 = true))) :=
  ⟨by decide, C1_priority_is_enabled_iff ⟨0, fun _ => 1, ⟨7, 8⟩⟩ 3 (by decide)⟩

/-- C2: for every level `p` in `0..7` whose counter `mxs_log_session_count[p]` is zero,
`MXS_LOG_PRIORITY_IS_ENABLED(p)` equals bit `p` of the global mask, replacing the thread-local
session information by any other leaves the result unchanged, and the result is false when
bit `p` of the global mask is clear. -/
theorem C2_zero_interest_gate (v : LogVars) (p : Nat) (_hp : p < 8)
    (h0 : v.mxs_log_session_count p = 0) :
    MXS_LOG_PRIORITY_IS_ENABLED v p = Int.testBit v.mxs_log_enabled_priorities p ∧
    (∀ tls : mxs_log_info,
      MXS_LOG_PRIORITY_IS_ENABLED { v with mxs_log_tls := tls } p =
        MXS_LOG_PRIORITY_IS_ENABLED v p) ∧
    (Int.testBit v.mxs_log_enabled_priorities p = false →
      MXS_LOG_PRIORITY_IS_ENABLED v p = false) := by
  have key : ∀ w : LogVars, w.mxs_log_session_count p = 0 →
      MXS_LOG_PRIORITY_IS_ENABLED w p = Int.testBit w.mxs_log_enabled_priorities p := by
    intro w hw
    rw [Bool.eq_iff_iff, MXS_LOG_PRIORITY_IS_ENABLED_iff, hw]
    simp
  refine ⟨key v h0, ?_, ?_⟩
  · intro tls
    rw [key v h0]
    exact key { v with mxs_log_tls := tls } h0
  · intro hg
    rw [key v h0, hg]

theorem C2_zero_interest_gate_witness :
    (MXS_LOG_PRIORITY_IS_ENABLED ⟨8, fun _ => 0, ⟨7, 255⟩⟩ 6 = Int.testBit (8 : Int) 6 ∧
    (∀ tls : mxs_log_info,
      MXS_LOG_PRIORITY_IS_ENABLED ⟨8, fun _ => 0, tls⟩ 6 =
        MXS_LOG_PRIORITY_IS_ENABLED ⟨8, fun _ => 0, ⟨7, 255⟩⟩ 6) ∧
    (Int.testBit (8 : Int) 6 = false →
      MXS_LOG_PRIORITY_IS_ENABLED ⟨8, fun _ => 0, ⟨7, 255⟩⟩ 6 = false)) ∧
    Int.testBit (8 : Int) 6 = false :=
  ⟨C2_zero_interest_gate ⟨8, fun _ => 0, ⟨7, 255⟩⟩ 6 (by decide) rfl, by decide⟩

/-- C10: for every level `p` in `0..7`, two states that agree on bit `p` of the global mask, on
`mxs_log_session_count[p]` and on bit `p` of the thread-local session mask give the same value
of `MXS_LOG_PRIORITY_IS_ENABLED(p)`, whatever the other bits and counters are. -/
theorem C10_priority_independence (v w : LogVars) (p : Nat) (_hp : p < 8)
    (hg : Int.testBit v.mxs_log_enabled_priorities p =
      Int.testBit w.mxs_log_enabled_priorities p)
    (hc : v.mxs_log_session_count p = w.mxs_log_session_count p)
    (hs : Int.testBit v.mxs_log_tls.li_enabled_priorities p =
      Int.testBit w.mxs_log_tls.li_enabled_priorities p) :
    MXS_LOG_PRIORITY_IS_ENABLED v p = MXS_LOG_PRIORITY_IS_ENABLED w p := by
  rw [Bool.eq_iff_iff, MXS_LOG_PRIORITY_IS_ENABLED_iff, MXS_LOG_PRIORITY_IS_ENABLED_iff,
    hg, hc, hs]

theorem C10_priority_independence_witness :
    MXS_LOG_PRIORITY_IS_ENABLED ⟨0x10, fun i => if i = 4 then 0 else 5, ⟨1, 0xEF⟩⟩ 4 =
      MXS_LOG_PRIORITY_IS_ENABLED ⟨0x7F, fun i => if i = 4 then 0 else 9, ⟨2, 0x00⟩⟩ 4 :=
  C10_priority_independence ⟨0x10, fun i => if i = 4 then 0 else 5, ⟨1, 0xEF⟩⟩
    ⟨0x7F, fun i => if i = 4 then 0 else 9, ⟨2, 0x00⟩⟩ 4 (by decide) (by decide) (by decide)
    (by decide)

/-! ## The priority set -/

theorem testBit_MXS_LOG_MASK (i : Nat) : Int.testBit MXS_LOG_MASK i = decide (i < 8) := by
  have h : MXS_LOG_MASK = ((2 ^ 8 - 1 : Nat) : Int) := by decide
  rw [h]
  show Nat.testBit (2 ^ 8 - 1) i = decide (i < 8)
  rw [Nat.testBit_two_pow_sub_one]

/-- C3: the syslog levels are `0..7`; the eight enumerators `MXS_LOG_EMERG .. MXS_LOG_DEBUG`
are `1 << level`, that is the powers of two `2^0 .. 2^7`, pairwise distinct; `MXS_LOG_MASK` is
`0xFF` and has exactly the bits `0..7`; and for every level `p` in `0..7` the bit `1 << p`
is the enumerator of that level and lies inside `MXS_LOG_MASK`. -/
theorem C3_priority_set :
    [LOG_EMERG, LOG_ALERT, LOG_CRIT, LOG_ERR, LOG_WARNING, LOG_NOTICE, LOG_INFO, LOG_DEBUG]
      = [0, 1, 2, 3, 4, 5, 6, 7] ∧
    [MXS_LOG_EMERG, MXS_LOG_ALERT, MXS_LOG_CRIT, MXS_LOG_ERR, MXS_LOG_WARNING, MXS_LOG_NOTICE,
      MXS_LOG_INFO, MXS_LOG_DEBUG] = (List.range 8).map (fun p => (2 : Int) ^ p) ∧
    [MXS_LOG_EMERG, MXS_LOG_ALERT, MXS_LOG_CRIT, MXS_LOG_ERR, MXS_LOG_WARNING, MXS_LOG_NOTICE,
      MXS_LOG_INFO, MXS_LOG_DEBUG].Nodup ∧
    MXS_LOG_MASK = 0xFF ∧
    (∀ i : Nat, Int.testBit MXS_LOG_MASK i = decide (i < 8)) ∧
    (∀ p : Fin 8,
      priorityEnumerator (p.val : Int) = some (1 <<< (p.val : Int)) ∧
      Int.land MXS_LOG_MASK (1 <<< (p.val : Int)) = 1 <<< (p.val : Int)) := by
  refine ⟨by decide, by decide, by decide, by decide, testBit_MXS_LOG_MASK, ?_⟩
  decide

/-! ## The logging macros -/

theorem vformat_oom (m : String) (rest : List Arg) :
    vformat "OOM: %s".toList (Arg.str m :: rest) = "OOM: ".toList ++ m.toList := by
  show vformat ['O', 'O', 'M', ':', ' ', '%', 's'] (Arg.str m :: rest) = _
  simp [vformat]

/-- C8: for every format string and argument list, `MXS_ERROR`, `MXS_WARNING`, `MXS_NOTICE`,
`MXS_INFO` and `MXS_DEBUG` each make exactly one call of `mxs_log_message`, with priority
`LOG_ERR`, `LOG_WARNING`, `LOG_NOTICE`, `LOG_INFO` and `LOG_DEBUG` respectively, with
`modname = MXS_MODULE_NAME` (which is `NULL` when it was not defined before the header was
included, and the defined value otherwise), with the call site's file, line and function, and
with the caller's format and arguments unchanged. -/
theorem C8_convenience_macros (predefined : Option (Option String)) (site : CallSite)
    (format : String) (args : List Arg) :
    (∃ c, MXS_ERROR predefined site format args = [c] ∧ c.priority = LOG_ERR ∧
      c.modname = MXS_MODULE_NAME predefined ∧ c.file = site.file ∧ c.line = site.line ∧
      c.function = site.func ∧ c.format = format ∧ c.args = args) ∧
    (∃ c, MXS_WARNING predefined site format args = [c] ∧ c.priority = LOG_WARNING ∧
      c.modname = MXS_MODULE_NAME predefined ∧ c.file = site.file ∧ c.line = site.line ∧
      c.function = site.func ∧ c.format = format ∧ c.args = args) ∧
    (∃ c, MXS_NOTICE predefined site format args = [c] ∧ c.priority = LOG_NOTICE ∧
      c.modname = MXS_MODULE_NAME predefined ∧ c.file = site.file ∧ c.line = site.line ∧
      c.function = site.func ∧ c.format = format ∧ c.args = args) ∧
    (∃ c, MXS_INFO predefined site format args = [c] ∧ c.priority = LOG_INFO ∧
      c.modname = MXS_MODULE_NAME predefined ∧ c.file = site.file ∧ c.line = site.line ∧
      c.function = site.func ∧ c.format = format ∧ c.args = args) ∧
    (∃ c, MXS_DEBUG predefined site format args = [c] ∧ c.priority = LOG_DEBUG ∧
      c.modname = MXS_MODULE_NAME predefined ∧ c.file = site.file ∧ c.line = site.line ∧
      c.function = site.func ∧ c.format = format ∧ c.args = args) ∧
    MXS_MODULE_NAME none = none ∧
    (∀ name : Option String, MXS_MODULE_NAME (some name) = name) ∧
    [LOG_ERR, LOG_WARNING, LOG_NOTICE, LOG_INFO, LOG_DEBUG] = [3, 4, 5, 6, 7] :=
  ⟨⟨_, rfl, rfl, rfl, rfl, rfl, rfl, rfl, rfl⟩, ⟨_, rfl, rfl, rfl, rfl, rfl, rfl, rfl, rfl⟩,
    ⟨_, rfl, rfl, rfl, rfl, rfl, rfl, rfl, rfl⟩, ⟨_, rfl, rfl, rfl, rfl, rfl, rfl, rfl, rfl⟩,
    ⟨_, rfl, rfl, rfl, rfl, rfl, rfl, rfl, rfl⟩, rfl, fun _ => rfl, by decide⟩

/-- C9: for every pointer `p` and message `m`, `MXS_OOM_MESSAGE_IFNULL(p, m)` calls the
logging entry point if and only if `p` is `NULL`; when `p` is `NULL` it makes exactly one
call, at priority `LOG_ERR`, whose text is `"OOM: "` followed by `m`; when `p` is not `NULL`
it makes no call; and `MXS_OOM_IFNULL(p)` is `MXS_OOM_MESSAGE_IFNULL(p, __func__)`. -/
theorem C9_oom_ifnull (predefined : Option (Option String)) (site : CallSite) (p : Nat)
    (m : String) :
    (MXS_OOM_MESSAGE_IFNULL predefined site p m ≠ [] ↔ p = 0) ∧
    (p = 0 → ∃ c, MXS_OOM_MESSAGE_IFNULL predefined site p m = [c] ∧ c.priority = LOG_ERR ∧
      c.text = "OOM: ".toList ++ m.toList) ∧
    (p ≠ 0 → MXS_OOM_MESSAGE_IFNULL predefined site p m = []) ∧
    MXS_OOM_IFNULL predefined site p = MXS_OOM_MESSAGE_IFNULL predefined site p site.func := by
  refine ⟨?_, ?_, ?_, ?_⟩
  · by_cases hp : p = 0
    · simp [MXS_OOM_MESSAGE_IFNULL, hp, MXS_OOM_MESSAGE, MXS_ERROR, MXS_LOG_MESSAGE]
    · simp [MXS_OOM_MESSAGE_IFNULL, hp]
  · intro hp
    refine ⟨mxs_log_message LOG_ERR (MXS_MODULE_NAME predefined) site.file site.line site.func
      "OOM: %s" [Arg.str m], ?_, rfl, ?_⟩
    · simp [MXS_OOM_MESSAGE_IFNULL, hp, MXS_OOM_MESSAGE, MXS_ERROR, MXS_LOG_MESSAGE]
    · exact vformat_oom m []
  · intro hp
    simp [MXS_OOM_MESSAGE_IFNULL, hp]
  · simp [MXS_OOM_IFNULL, MXS_OOM_MESSAGE_IFNULL, MXS_OOM]

theorem C9_oom_ifnull_witness :
    (∃ c, MXS_OOM_MESSAGE_IFNULL none ⟨"buffer.c", 120, "gwbuf_alloc"⟩ 0 "no buffer" = [c] ∧
      c.priority = LOG_ERR ∧ c.text = "OOM: ".toList ++ "no buffer".toList) ∧
    MXS_OOM_MESSAGE_IFNULL none ⟨"buffer.c", 120, "gwbuf_alloc"⟩ 4096 "no buffer" = [] :=
  ⟨(C9_oom_ifnull none ⟨"buffer.c", 120, "gwbuf_alloc"⟩ 0 "no buffer").2.1 rfl,
    (C9_oom_ifnull none ⟨"buffer.c", 120, "gwbuf_alloc"⟩ 4096 "no buffer").2.2.1 (by decide)⟩

/-- C6: `MXS_OOM_MESSAGE` is `MXS_ERROR("OOM: %s", message)`: it, `MXS_OOM`, and the two
`IFNULL` forms on a `NULL` pointer, each invoke the ordinary entry point `mxs_log_message`
once, through `MXS_LOG_MESSAGE`, and there is no separate path. -/
theorem C6_oom_uses_ordinary_entry_point (predefined : Option (Option String))
    (site : CallSite) (m : String) :
    MXS_OOM_MESSAGE predefined site m =
      [mxs_log_message LOG_ERR (MXS_MODULE_NAME predefined) site.file site.line site.func
        "OOM: %s" [Arg.str m]] ∧
    MXS_OOM_MESSAGE predefined site m
      = MXS_LOG_MESSAGE predefined site LOG_ERR "OOM: %s" [Arg.str m] ∧
    MXS_OOM predefined site
      = MXS_LOG_MESSAGE predefined site LOG_ERR "OOM: %s" [Arg.str site.func] ∧
    MXS_OOM_MESSAGE_IFNULL predefined site 0 m
      = MXS_LOG_MESSAGE predefined site LOG_ERR "OOM: %s" [Arg.str m] ∧
    MXS_OOM_IFNULL predefined site 0
      = MXS_LOG_MESSAGE predefined site LOG_ERR "OOM: %s" [Arg.str site.func] ∧
    (MXS_OOM_MESSAGE none ⟨"alloc.c", 31, "mxs_malloc"⟩ "x").length = 1 :=
  ⟨rfl, rfl, rfl, rfl, rfl, rfl⟩

/-- C7: at a message of 100 characters, `MXS_OOM_MESSAGE` hands the whole message to
`mxs_log_message`: the argument is the uncut message and the requested text has 105
characters, more than the 79 that `MXS_OOM_MESSAGE_MAXLEN = 80` allows. -/
theorem C7_oom_message_not_cut :
    MXS_OOM_MESSAGE_MAXLEN = 80 ∧
    (String.mk (List.replicate 100 'a')).length = 100 ∧
    (MXS_OOM_MESSAGE none ⟨"alloc.c", 31, "mxs_malloc"⟩ (String.mk (List.replicate 100 'a'))).map
        LogCall.args = [[Arg.str (String.mk (List.replicate 100 'a'))]] ∧
    (MXS_OOM_MESSAGE none ⟨"alloc.c", 31, "mxs_malloc"⟩ (String.mk (List.replicate 100 'a'))).map
        (fun c => c.text.length) = [105] ∧
    ¬ (105 + 1 ≤ MXS_OOM_MESSAGE_MAXLEN) := by
  refine ⟨rfl, by decide, rfl, ?_, by decide⟩
  decide

/-! ## Throttling -/

theorem shouldSuppress_policy (t : ThrottleTracker) (site nowMs : Nat) :
    (shouldSuppress t site nowMs).2.policy = t.policy := rfl

theorem logAll_policy : ∀ (msgs : List (Nat × Nat)) (t : ThrottleTracker),
    (logAll t msgs).2.policy = t.policy
  | [], _ => rfl
  | (site, nowMs) :: rest, t => by
    show (logAll (shouldSuppress t site nowMs).2 rest).2.policy = t.policy
    rw [logAll_policy rest, shouldSuppress_policy]

/-- The decisions for one call site and its entry depend only on the messages of that site. -/
theorem logAll_site (site : Nat) : ∀ (msgs : List (Nat × Nat)) (t : ThrottleTracker),
    decisionsOf site (logAll t msgs).1 =
        (siteRun t.policy (t.sites site) (timesOf site msgs)).1 ∧
      (logAll t msgs).2.sites site =
        (siteRun t.policy (t.sites site) (timesOf site msgs)).2
  | [], _ => ⟨rfl, rfl⟩
  | (s, nowMs) :: rest, t => by
    have ih := logAll_site site rest (shouldSuppress t s nowMs).2
    rw [shouldSuppress_policy] at ih
    by_cases hs : s = site
    · subst hs
      have hentry : (shouldSuppress t s nowMs).2.sites s
          = (throttleStep t.policy (t.sites s) nowMs).2 := by
        simp [shouldSuppress]
      rw [hentry] at ih
      simpa [logAll, decisionsOf, timesOf, siteRun, shouldSuppress] using ih
    · have hentry : (shouldSuppress t s nowMs).2.sites site = t.sites site := by
        simp [shouldSuppress, Function.update_noteq (Ne.symm hs)]
      rw [hentry] at ih
      simpa [logAll, decisionsOf, timesOf, hs] using ih

theorem siteRun_append (policy : MXS_LOG_THROTTLING) :
    ∀ (xs ys : List Nat) (entry : Option ThrottleState),
      siteRun policy entry (xs ++ ys) =
        ((siteRun policy entry xs).1 ++ (siteRun policy (siteRun policy entry xs).2 ys).1,
          (siteRun policy (siteRun policy entry xs).2 ys).2)
  | [], _, _ => rfl
  | x :: xs, ys, entry => by
    simp [siteRun, siteRun_append policy xs ys]

/-- While a site is suppressed, every message before the deadline is dropped and the entry
stays as it is. -/
theorem siteRun_suppressed (policy : MXS_LOG_THROTTLING) (hpol : policy.count ≠ 0)
    (s : ThrottleState) (deadline : Nat) (hs : s.suppressedUntilTime = some deadline) :
    ∀ us : List Nat, (∀ u ∈ us, u < deadline) →
      siteRun policy (some s) us = (us.map (fun _ => true), some s)
  | [], _ => rfl
  | u :: us, h => by
    have hu : u < deadline := h u (List.mem_cons_self _ _)
    have hstep : throttleStep policy (some s) u = (true, some s) := by
      simp [throttleStep, hpol, hs, Nat.not_le.mpr hu]
    have ih := siteRun_suppressed policy hpol s deadline hs us
      (fun w hw => h w (List.mem_cons_of_mem _ hw))
    simp [siteRun, hstep, ih]

theorem siteRun_burst (t1 t2 t3 t4 : Nat) (h12 : t1 ≤ t2) (h23 : t2 ≤ t3) (h34 : t3 ≤ t4)
    (hwin : t4 ≤ t1 + 1000) :
    siteRun ⟨3, 1000, 5000⟩ none [t1, t2, t3, t4] =
      ([false, false, false, true], some ⟨4, t1, some (t4 + 5000)⟩) := by
  have h2 : t2 - t1 ≤ 1000 := by omega
  have h3 : t3 - t1 ≤ 1000 := by omega
  have h4 : t4 - t1 ≤ 1000 := by omega
  simp [siteRun, throttleStep, h2, h3, h4]

/-- C4: with the policy `{count = 3, window_ms = 1000, suppress_ms = 5000}` set through
`mxs_log_set_throttling`, for every call site without an entry yet and every stream of
messages (other sites may log in between): the first three messages of the site, logged within
1000 ms of the first, pass; the fourth within that window is suppressed; every later message of
the site before 5000 ms after the fourth is suppressed; and the first message at or after that
deadline passes and restarts the window there with count 1. -/
theorem C4_throttling_scenario (t : ThrottleTracker) (site : Nat) (msgs : List (Nat × Nat))
    (t1 t2 t3 t4 v : Nat) (us : List Nat)
    (hfresh : t.sites site = none)
    (hmsgs : timesOf site msgs = [t1, t2, t3, t4] ++ us ++ [v])
    (h12 : t1 ≤ t2) (h23 : t2 ≤ t3) (h34 : t3 ≤ t4) (hwin : t4 ≤ t1 + 1000)
    (hus : ∀ u ∈ us, u < t4 + 5000) (hv : t4 + 5000 ≤ v) :
    decisionsOf site (logAll (mxs_log_set_throttling t ⟨3, 1000, 5000⟩) msgs).1 =
        [false, false, false, true] ++ us.map (fun _ => true) ++ [false] ∧
      (logAll (mxs_log_set_throttling t ⟨3, 1000, 5000⟩) msgs).2.sites site =
        some ⟨1, v, none⟩ ∧
      mxs_log_get_throttling (logAll (mxs_log_set_throttling t ⟨3, 1000, 5000⟩) msgs).2 =
        ⟨3, 1000, 5000⟩ := by
  have hsite := logAll_site site msgs (mxs_log_set_throttling t ⟨3, 1000, 5000⟩)
  have hpol : (mxs_log_set_throttling t ⟨3, 1000, 5000⟩).policy = ⟨3, 1000, 5000⟩ := rfl
  have hent : (mxs_log_set_throttling t ⟨3, 1000, 5000⟩).sites site = none := hfresh
  rw [hpol, hent, hmsgs] at hsite
  have hrun : siteRun ⟨3, 1000, 5000⟩ none ([t1, t2, t3, t4] ++ us ++ [v]) =
      ([false, false, false, true] ++ us.map (fun _ => true) ++ [false],
        some ⟨1, v, none⟩) := by
    rw [siteRun_append, siteRun_append, siteRun_burst t1 t2 t3 t4 h12 h23 h34 hwin]
    simp only []
    rw [siteRun_suppressed ⟨3, 1000, 5000⟩ (by decide) ⟨4, t1, some (t4 + 5000)⟩ (t4 + 5000) rfl
      us hus]
    simp [siteRun, throttleStep, hv]
  rw [hrun] at hsite
  refine ⟨hsite.1, hsite.2, ?_⟩
  show (logAll (mxs_log_set_throttling t ⟨3, 1000, 5000⟩) msgs).2.policy = _
  rw [logAll_policy]
  rfl

theorem C4_throttling_scenario_witness :
    decisionsOf 7 (logAll (mxs_log_set_throttling ⟨⟨0, 0, 0⟩, fun _ => none⟩ ⟨3, 1000, 5000⟩)
        [(7, 0), (9, 10), (7, 100), (7, 200), (7, 900), (7, 950), (9, 1000), (7, 5899),
          (7, 5900)]).1 =
        [false, false, false, true] ++ [950, 5899].map (fun _ => true) ++ [false] ∧
      (logAll (mxs_log_set_throttling ⟨⟨0, 0, 0⟩, fun _ => none⟩ ⟨3, 1000, 5000⟩)
        [(7, 0), (9, 10), (7, 100), (7, 200), (7, 900), (7, 950), (9, 1000), (7, 5899),
          (7, 5900)]).2.sites 7 = some ⟨1, 5900, none⟩ ∧
      mxs_log_get_throttling
        (logAll (mxs_log_set_throttling ⟨⟨0, 0, 0⟩, fun _ => none⟩ ⟨3, 1000, 5000⟩)
        [(7, 0), (9, 10), (7, 100), (7, 200), (7, 900), (7, 950), (9, 1000), (7, 5899),
          (7, 5900)]).2 = ⟨3, 1000, 5000⟩ :=
  C4_throttling_scenario ⟨⟨0, 0, 0⟩, fun _ => none⟩ 7
    [(7, 0), (9, 10), (7, 100), (7, 200), (7, 900), (7, 950), (9, 1000), (7, 5899), (7, 5900)]
    0 100 200 900 5900 [950, 5899] rfl (by decide) (by decide) (by decide) (by decide)
    (by decide) (by decide) (by decide)

/-! ## Session overrides -/

theorem testBit_lor_bit (m : Int) (p q : Nat) :
    Int.testBit (Int.lor m (1 <<< (p : Int))) q = (Int.testBit m q || decide (p = q)) := by
  rw [Int.testBit_lor, testBit_one_shiftLeft]

theorem testBit_land_lnot_bit (m : Int) (p q : Nat) :
    Int.testBit (Int.land m (Int.lnot (1 <<< (p : Int)))) q =
      (Int.testBit m q && !decide (p = q)) := by
  rw [Int.testBit_land, Int.testBit_lnot, testBit_one_shiftLeft]

theorem countsSessions_init : CountsSessions ∅ SessionTable.init :=
  ⟨fun _ _ => rfl, fun _ => by simp [SessionTable.init]⟩

theorem countsSessions_mono {S S' : Finset Nat} {t : SessionTable} (h : CountsSessions S t)
    (hS : S ⊆ S') : CountsSessions S' t := by
  refine ⟨fun sid hsid => h.1 sid (fun hmem => hsid (hS hmem)), fun p => ?_⟩
  rw [h.2 p]
  apply Finset.sum_subset hS
  intro x _ hx
  rw [h.1 x hx]
  have h0 : Int.testBit 0 p = false := by
    show Nat.testBit 0 p = false
    exact Nat.zero_testBit p
  simp [h0]

theorem sum_update_mask (S : Finset Nat) (masks : Nat → Int) (sid : Nat) (hsid : sid ∈ S)
    (v : Int) (q : Nat) :
    (∑ s in S, if Int.testBit (Function.update masks sid v s) q = true then (1 : Int) else 0) =
      (∑ s in S, if Int.testBit (masks s) q = true then (1 : Int) else 0)
        - (if Int.testBit (masks sid) q = true then (1 : Int) else 0)
        + (if Int.testBit v q = true then (1 : Int) else 0) := by
  rw [← Finset.add_sum_erase S _ hsid,
    ← Finset.add_sum_erase S (fun s => if Int.testBit (masks s) q = true then (1 : Int) else 0)
      hsid]
  have hrest : (∑ s in S.erase sid,
        if Int.testBit (Function.update masks sid v s) q = true then (1 : Int) else 0) =
      ∑ s in S.erase sid, if Int.testBit (masks s) q = true then (1 : Int) else 0 := by
    apply Finset.sum_congr rfl
    intro x hx
    rw [Function.update_noteq (Finset.ne_of_mem_erase hx)]
  rw [hrest, Function.update_same]
  ring

theorem countsSessions_step {S : Finset Nat} {t : SessionTable} (h : CountsSessions S t)
    (sid p : Nat) (e : Bool) (hsid : sid ∈ S) :
    CountsSessions S (sessionSetPriorityEnabled t sid p e) := by
  unfold sessionSetPriorityEnabled
  simp only [land_one_shiftLeft_ne_zero]
  cases e <;> by_cases hbit : Int.testBit (t.enabledMask sid) p = true <;>
    simp only [hbit, decide_True, decide_False, if_true, if_false, Bool.false_eq_true] <;>
    try exact h
  · refine ⟨fun s hs => ?_, fun q => ?_⟩
    · have hne : s ≠ sid := fun hEq => hs (hEq ▸ hsid)
      simp only [Function.update_noteq hne]
      exact h.1 s hs
    · simp only []
      rw [sum_update_mask S _ sid hsid, testBit_land_lnot_bit, ← h.2 q]
      by_cases hpq : p = q
      · subst hpq
        simp [hbit]
      · simp [hpq, Function.update_noteq (Ne.symm hpq)]
  · refine ⟨fun s hs => ?_, fun q => ?_⟩
    · have hne : s ≠ sid := fun hEq => hs (hEq ▸ hsid)
      simp only [Function.update_noteq hne]
      exact h.1 s hs
    · simp only []
      rw [sum_update_mask S _ sid hsid, testBit_lor_bit, ← h.2 q]
      by_cases hpq : p = q
      · subst hpq
        simp [hbit]
      · simp [hpq, Function.update_noteq (Ne.symm hpq)]

theorem countsSessions_applyToggles : ∀ (ts : List Toggle) (t : SessionTable) (S : Finset Nat),
    CountsSessions S t → ∃ S', CountsSessions S' (applyToggles t ts)
  | [], t, S, h => ⟨S, h⟩
  | g :: ts, t, S, h => by
    have h1 : CountsSessions (insert g.sessionId S) t :=
      countsSessions_mono h (Finset.subset_insert _ _)
    exact countsSessions_applyToggles ts _ _
      (countsSessions_step h1 g.sessionId g.priority g.enabled (Finset.mem_insert_self _ _))

theorem countsSessions_nonneg {S : Finset Nat} {t : SessionTable} (h : CountsSessions S t)
    (p : Nat) : 0 ≤ t.mxs_log_session_count p := by
  rw [h.2 p]
  apply Finset.sum_nonneg
  intro s _
  split <;> decide

/-- C5: for every sequence of per-session toggles applied to the initial table (no overrides,
all counters zero), every further toggle and every priority `p`: enabling a priority that is
disabled in the session increments its counter by exactly 1 and sets it in the session's mask;
disabling a priority that is enabled in the session decrements its counter by exactly 1 and
clears it in the mask; a toggle that leaves the session masks unchanged leaves every counter
unchanged; and `mxs_log_session_count[p]` is not negative, before and after the toggle. -/
theorem C5_session_counters (ts : List Toggle) (g : Toggle) (p : Nat) :
    (g.enabled = true → (applyToggles SessionTable.init ts).has g.sessionId g.priority = false →
      (applyToggles SessionTable.init (ts ++ [g])).mxs_log_session_count g.priority =
          (applyToggles SessionTable.init ts).mxs_log_session_count g.priority + 1 ∧
        (applyToggles SessionTable.init (ts ++ [g])).has g.sessionId g.priority = true) ∧
    (g.enabled = false → (applyToggles SessionTable.init ts).has g.sessionId g.priority = true →
      (applyToggles SessionTable.init (ts ++ [g])).mxs_log_session_count g.priority =
          (applyToggles SessionTable.init ts).mxs_log_session_count g.priority - 1 ∧
        (applyToggles SessionTable.init (ts ++ [g])).has g.sessionId g.priority = false) ∧
    ((applyToggles SessionTable.init (ts ++ [g])).enabledMask =
        (applyToggles SessionTable.init ts).enabledMask →
      (applyToggles SessionTable.init (ts ++ [g])).mxs_log_session_count =
        (applyToggles SessionTable.init ts).mxs_log_session_count) ∧
    0 ≤ (applyToggles SessionTable.init ts).mxs_log_session_count p ∧
    0 ≤ (applyToggles SessionTable.init (ts ++ [g])).mxs_log_session_count p := by
  have happ : applyToggles SessionTable.init (ts ++ [g]) =
      sessionSetPriorityEnabled (applyToggles SessionTable.init ts) g.sessionId g.priority
        g.enabled := by
    simp [applyToggles, List.foldl_append]
  obtain ⟨S, hS⟩ := countsSessions_applyToggles ts _ _ countsSessions_init
  obtain ⟨S', hS'⟩ := countsSessions_applyToggles (ts ++ [g]) _ _ countsSessions_init
  refine ⟨?_, ?_, ?_, countsSessions_nonneg hS p, countsSessions_nonneg hS' p⟩
  · intro he hbit
    unfold SessionTable.has at hbit
    rw [happ]
    unfold sessionSetPriorityEnabled SessionTable.has
    simp only [land_one_shiftLeft_ne_zero, he, hbit, if_true, Bool.false_eq_true, decide_False,
      if_false, Function.update_same, testBit_lor_bit]
    simp
  · intro he hbit
    unfold SessionTable.has at hbit
    rw [happ]
    unfold sessionSetPriorityEnabled SessionTable.has
    simp only [land_one_shiftLeft_ne_zero, he, hbit, if_true, Bool.false_eq_true, decide_True,
      if_false, Function.update_same, testBit_land_lnot_bit]
    simp
  · rw [happ]
    unfold sessionSetPriorityEnabled
    simp only [land_one_shiftLeft_ne_zero]
    cases g.enabled <;>
      by_cases hbit : Int.testBit ((applyToggles SessionTable.init ts).enabledMask g.sessionId)
        g.priority = true <;>
      simp only [hbit, decide_True, decide_False, if_true, if_false, Bool.false_eq_true,
        imp_self]
    · intro hmask
      have h1 := congrArg (fun f => Int.testBit (f g.sessionId) g.priority) hmask
      simp only [Function.update_same, testBit_land_lnot_bit, hbit] at h1
      simp at h1
    · intro hmask
      have h1 := congrArg (fun f => Int.testBit (f g.sessionId) g.priority) hmask
      simp only [Function.update_same, testBit_lor_bit] at h1
      simp [hbit] at h1

theorem C5_session_counters_witness :
    (applyToggles SessionTable.init ([⟨1, 6, true⟩, ⟨2, 6, true⟩] ++ [⟨1, 6, false⟩])
        ).mxs_log_session_count 6 =
      (applyToggles SessionTable.init [⟨1, 6, true⟩, ⟨2, 6, true⟩]).mxs_log_session_count 6 - 1 ∧
    (applyToggles SessionTable.init [⟨1, 6, true⟩, ⟨2, 6, true⟩]).mxs_log_session_count 6 = 2 ∧
    (applyToggles SessionTable.init ([⟨1, 6, true⟩] ++ [⟨2, 6, true⟩])
        ).mxs_log_session_count 6 =
      (applyToggles SessionTable.init [⟨1, 6, true⟩]).mxs_log_session_count 6 + 1 ∧
    (applyToggles SessionTable.init ([⟨1, 6, true⟩] ++ [⟨1, 6, true⟩])
        ).mxs_log_session_count =
      (applyToggles SessionTable.init [⟨1, 6, true⟩]).mxs_log_session_count :=
  ⟨((C5_session_counters [⟨1, 6, true⟩, ⟨2, 6, true⟩] ⟨1, 6, false⟩ 6).2.1 rfl (by decide)).1,
    by decide,
    ((C5_session_counters [⟨1, 6, true⟩] ⟨2, 6, true⟩ 6).1 rfl (by decide)).1,
    (C5_session_counters [⟨1, 6, true⟩] ⟨1, 6, true⟩ 6).2.2.1 rfl⟩

end MaxScale
